import Mathlib

/-!
Verification of the announcements service
(`src/backend/routers/announcements.py`).

The service manages time-bounded announcement records in a document store
(one collection keyed by `ObjectId` identifiers) with a teacher directory
used as an existence-only authentication check.  We embed the store as an
association list and each endpoint handler as a pure function threading the
store state explicitly; HTTP errors become an `ApiError` value.
-/

set_option autoImplicit false

/-- Python truthiness of an optional string parameter (`if start_date:`):
`None` and the empty string are falsy. -/
def pyTruthy : Option String → Bool
  | none => false
  | some s => s ≠ ""

/-- Digits of a decimal numeral to its value. -/
def digitsVal (l : List Char) : Nat :=
  l.foldl (fun n c => n * 10 + (c.toNat - 48)) 0

/-- Split a character list at every dash, keeping empty pieces (the
behavior of the literal `-` separators in the `strptime` pattern). -/
def splitDash (l : List Char) : List (List Char) :=
  match l with
  | [] => [[]]
  | c :: rest =>
    if c = '-' then [] :: splitDash rest
    else
      match splitDash rest with
      | [] => [[c]]
      | h :: t => (c :: h) :: t

/-- The `%Y` field of `strptime`: exactly four decimal digits. -/
def yearField (l : List Char) : Option Nat :=
  if l.length = 4 ∧ l.all Char.isDigit then some (digitsVal l) else none

/-- The `%m` field of `strptime`: one or two digits with value 1..12
(`1`..`9`, `01`..`09`, `10`..`12`). -/
def monthField (l : List Char) : Option Nat :=
  if (l.length = 1 ∨ l.length = 2) ∧ l.all Char.isDigit then
    let v := digitsVal l
    if 1 ≤ v ∧ v ≤ 12 then some v else none
  else none

/-- The `%d` field of `strptime`: one or two digits with value 1..31. -/
def dayField (l : List Char) : Option Nat :=
  if (l.length = 1 ∨ l.length = 2) ∧ l.all Char.isDigit then
    let v := digitsVal l
    if 1 ≤ v ∧ v ≤ 31 then some v else none
  else none

/-- Leap-year rule used by Python's `datetime`. -/
def isLeap (y : Nat) : Bool :=
  y % 4 = 0 && (y % 100 ≠ 0 || y % 400 = 0)

/-- Number of days in a month, as enforced by the `datetime` constructor. -/
def daysInMonth (y m : Nat) : Nat :=
  if m = 2 then (if isLeap y then 29 else 28)
  else if m = 4 ∨ m = 6 ∨ m = 9 ∨ m = 11 then 30
  else 31

/-- `datetime.strptime(s, "%Y-%m-%d")`: the pattern is year, month and day
fields joined by literal dashes, matched against the whole string, followed
by the `datetime` constructor's calendar check (year at least 1, day within
the month). -/
def parseYMD (s : String) : Option (Nat × Nat × Nat) :=
  match splitDash s.toList with
  | [ys, ms, ds] =>
    match yearField ys, monthField ms, dayField ds with
    | some y, some m, some d =>
      if 1 ≤ y ∧ d ≤ daysInMonth y m then some (y, m, d) else none
    | _, _, _ => none
  | _ => none

/-- A date string is valid when `strptime` with format `%Y-%m-%d` accepts it. -/
def isValidDate (s : String) : Bool :=
  (parseYMD s).isSome

/-- `bson.ObjectId(s)` accepts a string exactly when it is 24 hexadecimal
characters. -/
def isValidObjectId (s : String) : Bool :=
  s.length = 24 && s.toList.all (fun c =>
    c.isDigit || ('a' ≤ c && c ≤ 'f') || ('A' ≤ c && c ≤ 'F'))

/-- Lowercasing of a hex string, character by character. -/
def strToLower (s : String) : String :=
  (s.toList.map Char.toLower).asString

/-- `ObjectId(s)`: `none` on an invalid string (the handler turns the raised
`InvalidId` into HTTP 400); otherwise the canonical (lowercase hex) form,
which is how stored identifiers compare. -/
def objectIdOfString (s : String) : Option String :=
  if isValidObjectId s then some (strToLower s) else none

/-- A stored announcement document.  `start_date = none` means the field is
absent from the document; `created_by` is read with `.get` so it may also be
absent. -/
structure AnnouncementDoc where
  message : String
  expiration_date : String
  start_date : Option String
  created_by : Option String
deriving DecidableEq, Repr

/-- A record as rendered in an HTTP response body. -/
structure AnnouncementOut where
  id : String
  message : String
  start_date : Option String
  expiration_date : String
  created_by : Option String
deriving DecidableEq, Repr

/-- Rendering of a stored document into a response record, as done by the
list handlers (`str(announcement["_id"])` plus the stored fields). -/
def renderDoc (id : String) (a : AnnouncementDoc) : AnnouncementOut :=
  ⟨id, a.message, a.start_date, a.expiration_date, a.created_by⟩

/-- The announcements collection: documents with their `ObjectId` keys
(canonical hex form), in insertion order. -/
abbrev AnnStore := List (String × AnnouncementDoc)

/-- The state the handlers read and write: the teacher directory (document
ids of `teachers_collection`) and the announcements collection. -/
structure StoreState where
  teachers : List String
  announcements : AnnStore
deriving DecidableEq, Repr

/-- HTTP error outcomes raised by the handlers. -/
inductive ApiError where
  | unauthorized
  | invalidInput
  | notFound
  | internalError
deriving DecidableEq, Repr

/-- `announcements_collection.find_one({"_id": oid})`: first document with
the given key. -/
def findAnn (l : AnnStore) (oid : String) : Option AnnouncementDoc :=
  (l.find? (fun p => p.1 == oid)).map (fun p => p.2)

/-- `update_one({"_id": oid}, {"$unset": {"start_date": ""}})`: drop the
`start_date` field from the first document with the given key. -/
def unsetStartDate (l : AnnStore) (oid : String) : AnnStore :=
  match l with
  | [] => []
  | p :: rest =>
    if p.1 == oid then (p.1, { p.2 with start_date := none }) :: rest
    else p :: unsetStartDate rest oid

/-- `update_one({"_id": oid}, {"$set": update_doc})` where `update_doc` sets
`message` and `expiration_date` and sets `start_date` only when `st` is
`some`: applied to the first document with the given key. -/
def setFields (l : AnnStore) (oid : String) (m e : String)
    (st : Option String) : AnnStore :=
  match l with
  | [] => []
  | p :: rest =>
    if p.1 == oid then
      (p.1, { p.2 with
        message := m
        expiration_date := e
        start_date := match st with | some v => some v | none => p.2.start_date }) :: rest
    else p :: setFields rest oid m e st

/-- `delete_one({"_id": oid})`: remove the first document with the given key,
returning the new collection and the deleted count. -/
def deleteOne (l : AnnStore) (oid : String) : AnnStore × Nat :=
  match l with
  | [] => ([], 0)
  | p :: rest =>
    if p.1 == oid then (rest, 1)
    else
      let r := deleteOne rest oid
      (p :: r.1, r.2)

/-- `GET /announcements` (`get_announcements`): keep each stored document
unless its `start_date` is truthy and still in the future, and unless the
current date is past its `expiration_date`; render the survivors in store
order.  `current_date` stands for `datetime.now().strftime("%Y-%m-%d")`. -/
def get_announcements (current_date : String) (s : StoreState) :
    List AnnouncementOut :=
  (s.announcements.filter (fun p =>
    if pyTruthy p.2.start_date ∧ current_date < p.2.start_date.getD "" then
      false
    else
      current_date ≤ p.2.expiration_date)).map (fun p => renderDoc p.1 p.2)

/-- The greater-or-equal-expiration relation used to model
`.sort("expiration_date", -1)`. -/
def expGE (a b : String × AnnouncementDoc) : Prop :=
  b.2.expiration_date ≤ a.2.expiration_date

instance expGE.decRel : DecidableRel expGE := fun a b =>
  inferInstanceAs (Decidable (_ ≤ _))

instance expGE.total : IsTotal (String × AnnouncementDoc) expGE :=
  ⟨fun a b => le_total b.2.expiration_date a.2.expiration_date⟩

instance expGE.trans : IsTrans (String × AnnouncementDoc) expGE :=
  ⟨fun _ _ _ hab hbc => le_trans hbc hab⟩

/-- `GET /announcements/all` (`get_all_announcements`): requires the teacher
to exist, then renders every stored document sorted by `expiration_date`
descending (lexicographic on the date strings). -/
def get_all_announcements (teacher_username : String) (s : StoreState) :
    Except ApiError (List AnnouncementOut) :=
  if s.teachers.contains teacher_username then
    .ok (((s.announcements.insertionSort expGE).map (fun p => renderDoc p.1 p.2)))
  else
    .error .unauthorized

/-- `POST /announcements` (`create_announcement`).  `newId` stands for the
`ObjectId` the store assigns to the inserted document.  Returns the response
(or error) together with the post-state of the store. -/
def create_announcement (message expiration_date teacher_username : String)
    (start_date : Option String) (newId : String) (s : StoreState) :
    Except ApiError AnnouncementOut × StoreState :=
  if ¬ s.teachers.contains teacher_username then
    (.error .unauthorized, s)
  else if ¬ isValidDate expiration_date ∨
      (pyTruthy start_date ∧ ¬ isValidDate (start_date.getD "")) then
    (.error .invalidInput, s)
  else
    let doc : AnnouncementDoc :=
      { message := message
        expiration_date := expiration_date
        start_date := if pyTruthy start_date then start_date else none
        created_by := some teacher_username }
    (.ok ⟨newId, message, start_date, expiration_date, some teacher_username⟩,
      { s with announcements := s.announcements ++ [(newId, doc)] })

/-- `PUT /announcements/\x7bannouncement_id\x7d` (`update_announcement`):
authentication, identifier syntax check, existence check, date validation,
then an `$unset` of `start_date` when the parameter is falsy followed by a
`$set` of the updated fields, with a defensive 500 branch when the `$set`
reports neither a match nor a modification. -/
def update_announcement (announcement_id message expiration_date teacher_username : String)
    (start_date : Option String) (s : StoreState) :
    Except ApiError AnnouncementOut × StoreState :=
  if ¬ s.teachers.contains teacher_username then
    (.error .unauthorized, s)
  else
    match objectIdOfString announcement_id with
    | none => (.error .invalidInput, s)
    | some oid =>
      match findAnn s.announcements oid with
      | none => (.error .notFound, s)
      | some announcement =>
        if ¬ isValidDate expiration_date ∨
            (pyTruthy start_date ∧ ¬ isValidDate (start_date.getD "")) then
          (.error .invalidInput, s)
        else
          let store1 :=
            if pyTruthy start_date then s.announcements
            else unsetStartDate s.announcements oid
          let setStart := if pyTruthy start_date then start_date else none
          let store2 := setFields store1 oid message expiration_date setStart
          let matchedCount : Nat := if store1.any (fun p => p.1 == oid) then 1 else 0
          let modifiedCount : Nat := if store2 ≠ store1 then 1 else 0
          if modifiedCount = 0 ∧ matchedCount = 0 then
            (.error .internalError, { s with announcements := store2 })
          else
            (.ok ⟨announcement_id, message, start_date, expiration_date,
                announcement.created_by⟩,
              { s with announcements := store2 })

/-- `DELETE /announcements/\x7bannouncement_id\x7d` (`delete_announcement`):
authentication, identifier syntax check, then `delete_one`; 404 when nothing
was deleted. -/
def delete_announcement (announcement_id teacher_username : String)
    (s : StoreState) : Except ApiError Unit × StoreState :=
  if ¬ s.teachers.contains teacher_username then
    (.error .unauthorized, s)
  else
    match objectIdOfString announcement_id with
    | none => (.error .invalidInput, s)
    | some oid =>
      let r := deleteOne s.announcements oid
      if r.2 = 0 then (.error .notFound, s)
      else (.ok (), { s with announcements := r.1 })

/-- The spec's wording of the active-window filter: include the announcement
iff `start_date` is absent or `today >= start_date`, and
`today <= expiration_date` (lexicographic string comparison). -/
def specActive (today : String) (a : AnnouncementDoc) : Bool :=
  (match a.start_date with
    | none => true
    | some st => st ≤ today) &&
  today ≤ a.expiration_date

/-- A sample stored document (spec section 8 scenario, announcement A). -/
def demoDocA : AnnouncementDoc :=
  { message := "A"
    expiration_date := "2024-06-30"
    start_date := some "2024-06-01"
    created_by := some "t1" }

/-- A sample stored document (spec section 8 scenario, announcement B). -/
def demoDocB : AnnouncementDoc :=
  { message := "B"
    expiration_date := "2024-12-31"
    start_date := some "2024-07-01"
    created_by := some "t1" }

/-- Identifier of the first sample document. -/
def demoIdA : String := "aaaaaaaaaaaaaaaaaaaaaaaa"

/-- Identifier of the second sample document. -/
def demoIdB : String := "bbbbbbbbbbbbbbbbbbbbbbbb"

/-- A sample store: one teacher `t1` and the two sample documents. -/
def demoState : StoreState :=
  { teachers := ["t1"]
    announcements := [(demoIdA, demoDocA), (demoIdB, demoDocB)] }

/-- A well-formed identifier under which the sample store has no record. -/
def demoIdC : String := "cccccccccccccccccccccccc"

/-! ### Helper lemmas about the store primitives -/

lemma empty_le (s : String) : "" ≤ s := by
  rw [String.le_iff_toList_le]
  exact List.nil_le

lemma findAnn_isSome_iff_any (l : AnnStore) (oid : String) :
    (findAnn l oid).isSome = l.any (fun p => p.1 == oid) := by
  induction l with
  | nil => rfl
  | cons p rest ih =>
    by_cases h : p.1 == oid <;>
      simp [findAnn, List.find?, h, List.any_cons] at ih ⊢ <;> exact ih

lemma findAnn_unset (l : AnnStore) (oid : String) :
    findAnn (unsetStartDate l oid) oid =
      (findAnn l oid).map (fun d => { d with start_date := none }) := by
  induction l with
  | nil => rfl
  | cons p rest ih =>
    by_cases h : p.1 == oid <;>
      simp [findAnn, unsetStartDate, List.find?, h] at ih ⊢ <;> exact ih

lemma findAnn_set (l : AnnStore) (oid : String) (m e : String) (st : Option String) :
    findAnn (setFields l oid m e st) oid =
      (findAnn l oid).map (fun d =>
        { d with
          message := m
          expiration_date := e
          start_date := match st with | some v => some v | none => d.start_date }) := by
  induction l with
  | nil => rfl
  | cons p rest ih =>
    by_cases h : p.1 == oid <;>
      simp [findAnn, setFields, List.find?, h] at ih ⊢ <;> exact ih

lemma any_unset (l : AnnStore) (oid : String) :
    (unsetStartDate l oid).any (fun p => p.1 == oid) =
      l.any (fun p => p.1 == oid) := by
  induction l with
  | nil => rfl
  | cons p rest ih =>
    by_cases h : p.1 == oid <;> simp [unsetStartDate, h, List.any_cons] <;> exact ih

lemma deleteOne_snd_eq_zero_iff (l : AnnStore) (oid : String) :
    (deleteOne l oid).2 = 0 ↔ findAnn l oid = none := by
  induction l with
  | nil => simp [deleteOne, findAnn]
  | cons p rest ih =>
    by_cases h : p.1 == oid <;>
      simp [deleteOne, findAnn, List.find?, h] at ih ⊢ <;> exact ih

lemma countP_deleteOne (l : AnnStore) (oid : String) :
    (deleteOne l oid).1.countP (fun p => p.1 == oid) + (deleteOne l oid).2 =
      l.countP (fun p => p.1 == oid) := by
  induction l with
  | nil => rfl
  | cons p rest ih =>
    by_cases h : p.1 == oid <;>
      simp [deleteOne, List.countP_cons, h] <;> omega

lemma findAnn_eq_none_iff_countP (l : AnnStore) (oid : String) :
    findAnn l oid = none ↔ l.countP (fun p => p.1 == oid) = 0 := by
  induction l with
  | nil => simp [findAnn]
  | cons p rest ih =>
    by_cases h : p.1 == oid <;>
      simp [findAnn, List.find?, List.countP_cons, h] at ih ⊢ <;> omega

/-! ### Pointwise equivalence of the code's active test and the spec's -/

lemma code_active_eq_spec (today : String) (a : AnnouncementDoc) :
    (if pyTruthy a.start_date ∧ today < a.start_date.getD "" then false
     else decide (today ≤ a.expiration_date)) = specActive today a := by
  unfold specActive
  cases hsd : a.start_date with
  | none => simp [pyTruthy]
  | some st =>
    by_cases hst : st = ""
    · subst hst
      simp [pyTruthy, empty_le today]
    · by_cases hlt : today < st
      · rw [if_pos ⟨by simp [pyTruthy, hst], hlt⟩]
        simp [not_le.mpr hlt]
      · rw [if_neg (by simp [pyTruthy, hst, hlt])]
        simp [not_lt.mp hlt]

/-- C1: `list_active` returns exactly the stored announcements for which
(`start_date` absent or `today ≥ start_date`) and `today ≤ expiration_date`,
with lexicographic string comparison on the `YYYY-MM-DD` text, and excludes
all others. -/
theorem C1_list_active_exactly_spec_filter (today : String) (s : StoreState) :
    get_announcements today s =
      (s.announcements.filter (fun p => specActive today p.2)).map
        (fun p => renderDoc p.1 p.2) := by
  unfold get_announcements
  congr 1
  refine List.filter_congr ?_
  intro p _
  exact code_active_eq_spec today p.2

/-- C2: for a known teacher, `list_all` returns every stored announcement
(a permutation of the store's rendered contents, so inactive and expired
ones included) sorted by `expiration_date` descending under the string
order. -/
theorem C2_list_all_sorted_desc (u : String) (s : StoreState)
    (h : s.teachers.contains u = true) :
    ∃ out, get_all_announcements u s = .ok out ∧
      out.Perm (s.announcements.map (fun p => renderDoc p.1 p.2)) ∧
      out.Pairwise (fun x y => y.expiration_date ≤ x.expiration_date) := by
  refine ⟨(s.announcements.insertionSort expGE).map (fun p => renderDoc p.1 p.2),
    ?_, ?_, ?_⟩
  · unfold get_all_announcements
    rw [if_pos h]
  · exact (List.perm_insertionSort expGE s.announcements).map _
  · have hs : (s.announcements.insertionSort expGE).Pairwise expGE :=
      List.sorted_insertionSort expGE s.announcements
    exact List.pairwise_map.mpr hs

/-- On the success path (known teacher, well-formed id, existing record,
valid dates) `update_announcement` returns the echoed fields with the
original `created_by`, and the store after the `$unset` (when `start_date`
is falsy) and `$set` calls. -/
lemma update_success (id m e u : String) (st : Option String) (s : StoreState)
    (oid : String) (a : AnnouncementDoc)
    (hu : s.teachers.contains u = true)
    (hoid : objectIdOfString id = some oid)
    (hfind : findAnn s.announcements oid = some a)
    (he : isValidDate e = true)
    (hst : pyTruthy st = true → isValidDate (st.getD "") = true) :
    update_announcement id m e u st s =
      (.ok ⟨id, m, st, e, a.created_by⟩,
        { s with announcements := (setFields
            (if pyTruthy st then s.announcements else unsetStartDate s.announcements oid)
            oid m e (if pyTruthy st then st else none)) }) := by
  have hu' : u ∈ s.teachers := by simpa using hu
  by_cases hpt : pyTruthy st = true
  · have hany : s.announcements.any (fun p => p.1 == oid) = true := by
      rw [← findAnn_isSome_iff_any, hfind]; rfl
    simp [update_announcement, hu', hoid, hfind, he, hpt, hst hpt, hany]
  · have hany : (unsetStartDate s.announcements oid).any (fun p => p.1 == oid) = true := by
      rw [any_unset, ← findAnn_isSome_iff_any, hfind]; rfl
    simp [update_announcement, hu', hoid, hfind, he, hpt, hany]

/-- C3: for an existing id and known teacher, an update with `start_date`
omitted stores a record with no `start_date` field while still updating
`message` and `expiration_date` in the same operation; a supplied valid
`start_date` replaces the stored one. -/
theorem C3_update_clears_or_replaces_start_date
    (id m e u oid : String) (s : StoreState) (a : AnnouncementDoc)
    (hu : s.teachers.contains u = true)
    (hoid : objectIdOfString id = some oid)
    (hfind : findAnn s.announcements oid = some a)
    (he : isValidDate e = true) :
    (findAnn (update_announcement id m e u none s).2.announcements oid =
      some { message := m, expiration_date := e, start_date := none,
             created_by := a.created_by }) ∧
    (∀ v, v ≠ "" → isValidDate v = true →
      findAnn (update_announcement id m e u (some v) s).2.announcements oid =
        some { message := m, expiration_date := e, start_date := some v,
               created_by := a.created_by }) := by
  constructor
  · rw [update_success id m e u none s oid a hu hoid hfind he (by simp [pyTruthy])]
    simp [findAnn_set, findAnn_unset, hfind, pyTruthy]
  · intro v hv hval
    have hpt : pyTruthy (some v) = true := by simp [pyTruthy, hv]
    rw [update_success id m e u (some v) s oid a hu hoid hfind he
      (fun _ => by simpa using hval)]
    simp [findAnn_set, hpt, hfind]

/-- C4: a successful create appends exactly one record to the store, whose
`created_by` is the authenticated teacher's username and whose `start_date`
field is absent when the parameter was not supplied. -/
theorem C4_create_persists_one_record
    (m e u : String) (st : Option String) (i : String) (s : StoreState)
    (hu : s.teachers.contains u = true)
    (he : isValidDate e = true)
    (hst : pyTruthy st = true → isValidDate (st.getD "") = true) :
    ∃ doc : AnnouncementDoc,
      create_announcement m e u st i s =
        (.ok ⟨i, m, st, e, some u⟩,
          { s with announcements := s.announcements ++ [(i, doc)] }) ∧
      doc.created_by = some u ∧
      (st = none → doc.start_date = none) := by
  have hu' : u ∈ s.teachers := by simpa using hu
  refine ⟨{ message := m, expiration_date := e,
            start_date := if pyTruthy st then st else none,
            created_by := some u }, ?_, rfl, ?_⟩
  · by_cases hpt : pyTruthy st = true
    · simp [create_announcement, hu', he, hpt, hst hpt]
    · simp [create_announcement, hu', he, hpt]
  · intro h
    subst h
    simp [pyTruthy]

/-- C5: with a known teacher (and for update a valid existing id), create
and update fail with `InvalidInput` exactly when `expiration_date` does not
parse as `YYYY-MM-DD` or a supplied (nonempty) `start_date` does not parse;
in particular `2024-13-40` does not parse. -/
theorem C5_invalid_input_iff_bad_date
    (m e u : String) (st : Option String) (i id oid : String)
    (a : AnnouncementDoc) (s : StoreState)
    (hu : s.teachers.contains u = true)
    (hoid : objectIdOfString id = some oid)
    (hfind : findAnn s.announcements oid = some a) :
    ((create_announcement m e u st i s).1 = .error .invalidInput ↔
      (isValidDate e = false ∨ (pyTruthy st = true ∧ isValidDate (st.getD "") = false))) ∧
    ((update_announcement id m e u st s).1 = .error .invalidInput ↔
      (isValidDate e = false ∨ (pyTruthy st = true ∧ isValidDate (st.getD "") = false))) ∧
    isValidDate "2024-13-40" = false := by
  have hu' : u ∈ s.teachers := by simpa using hu
  refine ⟨?_, ?_, by decide⟩
  · by_cases hD : (isValidDate e = false ∨ (pyTruthy st = true ∧ isValidDate (st.getD "") = false))
    · simp [create_announcement, hu', hD]
    · simp [create_announcement, hu', hD]
  · by_cases hD : (isValidDate e = false ∨ (pyTruthy st = true ∧ isValidDate (st.getD "") = false))
    · simp [update_announcement, hu', hoid, hfind, hD]
    · simp only [update_announcement, hoid, hfind]
      rw [if_neg (by simpa using hu')]
      rw [if_neg (by simpa using hD)]
      repeat' split
      all_goals simp_all

/-- C6: an unknown teacher username makes `list_all`, create, update and
delete fail with `Unauthorized` regardless of every other argument, and
leaves the announcement store unchanged. -/
theorem C6_unknown_teacher_unauthorized (u : String) (s : StoreState)
    (hu : s.teachers.contains u = false) :
    get_all_announcements u s = .error .unauthorized ∧
    (∀ m e st i, create_announcement m e u st i s = (.error .unauthorized, s)) ∧
    (∀ id m e st, update_announcement id m e u st s = (.error .unauthorized, s)) ∧
    (∀ id, delete_announcement id u s = (.error .unauthorized, s)) := by
  have hu' : u ∉ s.teachers := by simpa using hu
  refine ⟨?_, ?_, ?_, ?_⟩ <;> intros <;>
    simp [get_all_announcements, create_announcement, update_announcement,
      delete_announcement, hu']

/-- C7: with a known teacher, update and delete fail with `InvalidInput` on
a syntactically invalid identifier and with `NotFound` on a well-formed
identifier with no record; deleting the same id twice (when the store holds
at most one record under it) makes the second delete fail `NotFound`. -/
theorem C7_id_errors_and_double_delete (u : String) (s : StoreState)
    (hu : s.teachers.contains u = true) :
    (∀ id m e st, isValidObjectId id = false →
      update_announcement id m e u st s = (.error .invalidInput, s) ∧
      delete_announcement id u s = (.error .invalidInput, s)) ∧
    (∀ id oid m e st, objectIdOfString id = some oid →
      findAnn s.announcements oid = none →
      update_announcement id m e u st s = (.error .notFound, s) ∧
      delete_announcement id u s = (.error .notFound, s)) ∧
    (∀ id oid, objectIdOfString id = some oid →
      s.announcements.countP (fun p => p.1 == oid) ≤ 1 →
      (delete_announcement id u s).1 = .ok () →
      (delete_announcement id u (delete_announcement id u s).2).1 =
        .error .notFound) := by
  have hu' : u ∈ s.teachers := by simpa using hu
  refine ⟨?_, ?_, ?_⟩
  · intro id m e st hbad
    have hnone : objectIdOfString id = none := by simp [objectIdOfString, hbad]
    constructor <;> simp [update_announcement, delete_announcement, hu', hnone]
  · intro id oid m e st hoid hnone
    have hzero : (deleteOne s.announcements oid).2 = 0 :=
      (deleteOne_snd_eq_zero_iff _ _).mpr hnone
    constructor <;>
      simp [update_announcement, delete_announcement, hu', hoid, hnone, hzero]
  · intro id oid hoid hcnt hok
    have h2 : (deleteOne s.announcements oid).2 ≠ 0 := by
      intro h0
      simp [delete_announcement, hu', hoid, h0] at hok
    have hstate : (delete_announcement id u s).2 =
        { s with announcements := (deleteOne s.announcements oid).1 } := by
      simp [delete_announcement, hu', hoid, h2]
    have hcnt0 : (deleteOne s.announcements oid).1.countP (fun p => p.1 == oid) = 0 := by
      have := countP_deleteOne s.announcements oid
      omega
    have hnone2 : findAnn (deleteOne s.announcements oid).1 oid = none :=
      (findAnn_eq_none_iff_countP _ _).mpr hcnt0
    have hzero2 : (deleteOne (deleteOne s.announcements oid).1 oid).2 = 0 :=
      (deleteOne_snd_eq_zero_iff _ _).mpr hnone2
    rw [hstate]
    simp [delete_announcement, hu', hoid, hzero2]

/-- C8: a successful update returns the id exactly as supplied together with
the new field values and the original record's `created_by`, and leaves the
stored record's `created_by` unmodified. -/
theorem C8_created_by_preserved (id m e u oid : String) (st : Option String)
    (s : StoreState) (a : AnnouncementDoc)
    (hu : s.teachers.contains u = true)
    (hoid : objectIdOfString id = some oid)
    (hfind : findAnn s.announcements oid = some a)
    (he : isValidDate e = true)
    (hst : pyTruthy st = true → isValidDate (st.getD "") = true) :
    (update_announcement id m e u st s).1 = .ok ⟨id, m, st, e, a.created_by⟩ ∧
    (findAnn (update_announcement id m e u st s).2.announcements oid).map
      (fun d => d.created_by) = some a.created_by := by
  rw [update_success id m e u st s oid a hu hoid hfind he hst]
  refine ⟨rfl, ?_⟩
  by_cases hpt : pyTruthy st = true <;>
    simp [hpt, findAnn_set, findAnn_unset, hfind]

/-- C9: in the sequential model of the store, update never fails with
`InternalError`: the defensive branch needs the `$set` to report neither a
match nor a modification, which the earlier existence check rules out. -/
theorem C9_update_never_internal_error (id m e u : String) (st : Option String)
    (s : StoreState) :
    (update_announcement id m e u st s).1 ≠ .error .internalError := by
  by_cases hu : s.teachers.contains u = true
  · have hu' : u ∈ s.teachers := by simpa using hu
    cases hoid : objectIdOfString id with
    | none => simp [update_announcement, hu', hoid]
    | some oid =>
      cases hfind : findAnn s.announcements oid with
      | none => simp [update_announcement, hu', hoid, hfind]
      | some a =>
        by_cases hD : (isValidDate e = false ∨
            (pyTruthy st = true ∧ isValidDate (st.getD "") = false))
        · simp [update_announcement, hu', hoid, hfind, hD]
        · simp only [not_or, not_and, Bool.not_eq_false] at hD
          rw [update_success id m e u st s oid a hu hoid hfind hD.1 hD.2]
          simp
  · have hu' : u ∉ s.teachers := by simpa using hu
    simp [update_announcement, hu']

/-- C10: an empty-string `start_date` behaves exactly like an absent one for
create and update with a known teacher: it is never date-validated (the
empty string does not parse, yet both operations succeed), the created
record omits the field, and an update with it removes the stored field. -/
theorem C10_empty_start_date_like_absent (m e u i id oid : String)
    (a : AnnouncementDoc) (s : StoreState)
    (hu : s.teachers.contains u = true)
    (he : isValidDate e = true)
    (hoid : objectIdOfString id = some oid)
    (hfind : findAnn s.announcements oid = some a) :
    (∃ doc, create_announcement m e u (some "") i s =
        (.ok ⟨i, m, some "", e, some u⟩,
          { s with announcements := s.announcements ++ [(i, doc)] }) ∧
        doc.start_date = none) ∧
    ((update_announcement id m e u (some "") s).1 =
        .ok ⟨id, m, some "", e, a.created_by⟩ ∧
      findAnn (update_announcement id m e u (some "") s).2.announcements oid =
        some { message := m, expiration_date := e, start_date := none,
               created_by := a.created_by }) ∧
    isValidDate "" = false := by
  have hu' : u ∈ s.teachers := by simpa using hu
  have hpt : pyTruthy (some "") = false := by simp [pyTruthy]
  refine ⟨⟨{ message := m, expiration_date := e, start_date := none,
             created_by := some u }, ?_, rfl⟩, ?_, by decide⟩
  · simp [create_announcement, hu', he, hpt]
  · rw [update_success id m e u (some "") s oid a hu hoid hfind he (by simp [pyTruthy])]
    refine ⟨rfl, ?_⟩
    simp [hpt, findAnn_set, findAnn_unset, hfind]

/-- Witness for C2 at the sample store. -/
theorem C2_list_all_sorted_desc_witness :
    demoState.teachers.contains "t1" = true ∧
    ∃ out, get_all_announcements "t1" demoState = .ok out ∧
      out.Perm (demoState.announcements.map (fun p => renderDoc p.1 p.2)) ∧
      out.Pairwise (fun x y => y.expiration_date ≤ x.expiration_date) :=
  ⟨by decide, C2_list_all_sorted_desc "t1" demoState (by decide)⟩

/-- Witness for C3: clearing and replacing `start_date` on the sample store. -/
theorem C3_update_clears_or_replaces_start_date_witness :
    (demoState.teachers.contains "t1" = true ∧
     objectIdOfString demoIdA = some demoIdA ∧
     findAnn demoState.announcements demoIdA = some demoDocA ∧
     isValidDate "2099-01-01" = true) ∧
    findAnn (update_announcement demoIdA "M" "2099-01-01" "t1" none
        demoState).2.announcements demoIdA =
      some { message := "M", expiration_date := "2099-01-01", start_date := none,
             created_by := demoDocA.created_by } ∧
    findAnn (update_announcement demoIdA "M" "2099-01-01" "t1" (some "2024-06-01")
        demoState).2.announcements demoIdA =
      some { message := "M", expiration_date := "2099-01-01",
             start_date := some "2024-06-01", created_by := demoDocA.created_by } :=
  ⟨⟨by decide, by decide, by decide, by decide⟩,
   (C3_update_clears_or_replaces_start_date demoIdA "M" "2099-01-01" "t1" demoIdA
     demoState demoDocA (by decide) (by decide) (by decide) (by decide)).1,
   (C3_update_clears_or_replaces_start_date demoIdA "M" "2099-01-01" "t1" demoIdA
     demoState demoDocA (by decide) (by decide) (by decide) (by decide)).2
     "2024-06-01" (by decide) (by decide)⟩

/-- Witness for C4: creating an announcement in the sample store. -/
theorem C4_create_persists_one_record_witness :
    (demoState.teachers.contains "t1" = true ∧
     isValidDate "2099-01-01" = true) ∧
    ∃ doc : AnnouncementDoc,
      create_announcement "M" "2099-01-01" "t1" none demoIdC demoState =
        (.ok ⟨demoIdC, "M", none, "2099-01-01", some "t1"⟩,
          { demoState with
              announcements := demoState.announcements ++ [(demoIdC, doc)] }) ∧
      doc.created_by = some "t1" ∧
      ((none : Option String) = none → doc.start_date = none) :=
  ⟨⟨by decide, by decide⟩,
   C4_create_persists_one_record "M" "2099-01-01" "t1" none demoIdC demoState
     (by decide) (by decide) (by decide)⟩

/-- Witness for C5 at a malformed expiration date. -/
theorem C5_invalid_input_iff_bad_date_witness :
    (demoState.teachers.contains "t1" = true ∧
     objectIdOfString demoIdA = some demoIdA ∧
     findAnn demoState.announcements demoIdA = some demoDocA) ∧
    ((create_announcement "M" "2024-13-40" "t1" none demoIdC demoState).1 =
        .error .invalidInput ↔
      (isValidDate "2024-13-40" = false ∨
        (pyTruthy none = true ∧ isValidDate (Option.getD none "") = false))) ∧
    ((update_announcement demoIdA "M" "2024-13-40" "t1" none demoState).1 =
        .error .invalidInput ↔
      (isValidDate "2024-13-40" = false ∨
        (pyTruthy none = true ∧ isValidDate (Option.getD none "") = false))) ∧
    isValidDate "2024-13-40" = false :=
  ⟨⟨by decide, by decide, by decide⟩,
   C5_invalid_input_iff_bad_date "M" "2024-13-40" "t1" none demoIdC demoIdA demoIdA
     demoDocA demoState (by decide) (by decide) (by decide)⟩

/-- Witness for C6 at an unknown username. -/
theorem C6_unknown_teacher_unauthorized_witness :
    demoState.teachers.contains "nobody" = false ∧
    get_all_announcements "nobody" demoState = .error .unauthorized ∧
    create_announcement "M" "bad-date" "nobody" (some "also-bad") demoIdC demoState =
      (.error .unauthorized, demoState) ∧
    update_announcement "not-an-id" "M" "bad-date" "nobody" none demoState =
      (.error .unauthorized, demoState) ∧
    delete_announcement "not-an-id" "nobody" demoState =
      (.error .unauthorized, demoState) :=
  ⟨by decide,
   (C6_unknown_teacher_unauthorized "nobody" demoState (by decide)).1,
   (C6_unknown_teacher_unauthorized "nobody" demoState (by decide)).2.1
     "M" "bad-date" (some "also-bad") demoIdC,
   (C6_unknown_teacher_unauthorized "nobody" demoState (by decide)).2.2.1
     "not-an-id" "M" "bad-date" none,
   (C6_unknown_teacher_unauthorized "nobody" demoState (by decide)).2.2.2
     "not-an-id"⟩

/-- Witness for C7: malformed id, unknown id and double delete on the
sample store. -/
theorem C7_id_errors_and_double_delete_witness :
    (demoState.teachers.contains "t1" = true ∧
     isValidObjectId "zz" = false ∧
     objectIdOfString demoIdC = some demoIdC ∧
     findAnn demoState.announcements demoIdC = none ∧
     objectIdOfString demoIdA = some demoIdA ∧
     demoState.announcements.countP (fun p => p.1 == demoIdA) ≤ 1 ∧
     (delete_announcement demoIdA "t1" demoState).1 = .ok ()) ∧
    (update_announcement "zz" "M" "2099-01-01" "t1" none demoState =
        (.error .invalidInput, demoState) ∧
      delete_announcement "zz" "t1" demoState = (.error .invalidInput, demoState)) ∧
    (update_announcement demoIdC "M" "2099-01-01" "t1" none demoState =
        (.error .notFound, demoState) ∧
      delete_announcement demoIdC "t1" demoState = (.error .notFound, demoState)) ∧
    (delete_announcement demoIdA "t1"
        (delete_announcement demoIdA "t1" demoState).2).1 = .error .notFound :=
  ⟨⟨by decide, by decide, by decide, by decide, by decide, by decide, by rfl⟩,
   (C7_id_errors_and_double_delete "t1" demoState (by decide)).1
     "zz" "M" "2099-01-01" none (by decide),
   (C7_id_errors_and_double_delete "t1" demoState (by decide)).2.1
     demoIdC demoIdC "M" "2099-01-01" none (by decide) (by decide),
   (C7_id_errors_and_double_delete "t1" demoState (by decide)).2.2
     demoIdA demoIdA (by decide) (by decide) (by rfl)⟩

/-- Witness for C8 at the sample store. -/
theorem C8_created_by_preserved_witness :
    (demoState.teachers.contains "t1" = true ∧
     objectIdOfString demoIdA = some demoIdA ∧
     findAnn demoState.announcements demoIdA = some demoDocA ∧
     isValidDate "2099-01-01" = true) ∧
    (update_announcement demoIdA "M" "2099-01-01" "t1" (some "2024-06-01")
        demoState).1 =
      .ok ⟨demoIdA, "M", some "2024-06-01", "2099-01-01", demoDocA.created_by⟩ ∧
    (findAnn (update_announcement demoIdA "M" "2099-01-01" "t1" (some "2024-06-01")
        demoState).2.announcements demoIdA).map (fun d => d.created_by) =
      some demoDocA.created_by :=
  ⟨⟨by decide, by decide, by decide, by decide⟩,
   (C8_created_by_preserved demoIdA "M" "2099-01-01" "t1" demoIdA
     (some "2024-06-01") demoState demoDocA (by decide) (by decide) (by decide)
     (by decide) (by decide)).1,
   (C8_created_by_preserved demoIdA "M" "2099-01-01" "t1" demoIdA
     (some "2024-06-01") demoState demoDocA (by decide) (by decide) (by decide)
     (by decide) (by decide)).2⟩

/-- Witness for C10: empty-string `start_date` on the sample store. -/
theorem C10_empty_start_date_like_absent_witness :
    (demoState.teachers.contains "t1" = true ∧
     isValidDate "2099-01-01" = true ∧
     objectIdOfString demoIdA = some demoIdA ∧
     findAnn demoState.announcements demoIdA = some demoDocA) ∧
    ((∃ doc, create_announcement "M" "2099-01-01" "t1" (some "") demoIdC demoState =
        (.ok ⟨demoIdC, "M", some "", "2099-01-01", some "t1"⟩,
          { demoState with
              announcements := demoState.announcements ++ [(demoIdC, doc)] }) ∧
        doc.start_date = none) ∧
     ((update_announcement demoIdA "M" "2099-01-01" "t1" (some "") demoState).1 =
         .ok ⟨demoIdA, "M", some "", "2099-01-01", demoDocA.created_by⟩ ∧
       findAnn (update_announcement demoIdA "M" "2099-01-01" "t1" (some "")
           demoState).2.announcements demoIdA =
         some { message := "M", expiration_date := "2099-01-01",
                start_date := none, created_by := demoDocA.created_by }) ∧
     isValidDate "" = false) :=
  ⟨⟨by decide, by decide, by decide, by decide⟩,
   C10_empty_start_date_like_absent "M" "2099-01-01" "t1" demoIdC demoIdA demoIdA
     demoDocA demoState (by decide) (by decide) (by decide) (by decide)⟩
